import Mathlib

/-!
Shallow embedding of `src/bedrock_agentcore/runtime/app.py`
(`BedrockAgentCoreApp`): the health state machine, the task registry,
the admission check of `_invoke_handler`, the handler dispatcher, the
SSE stream transcoder and the invocation orchestrator, together with
theorems checking the specification's claims about them.

Python wall-clock reads (`time.time()`) are passed in as explicit `now`
parameters; machine state (`self`) is threaded explicitly as `AppState`.
-/

namespace AgentCore

/-- Modelled from the spec: the `PingStatus` enum lives in `models.py`,
which is not part of the sources; the spec fixes exactly two members with
wire values `"Healthy"` and `"HealthyBusy"`. -/
inductive PingStatus
  | HEALTHY
  | HEALTHY_BUSY
deriving DecidableEq, Repr

/-- Modelled from the spec: `PingStatus.value`, the wire string of each
enum member (`"Healthy" | "HealthyBusy"` per spec section 6). -/
def PingStatus.value : PingStatus → String
  | .HEALTHY => "Healthy"
  | .HEALTHY_BUSY => "HealthyBusy"

/-- Modelled from the spec: the `PingStatus(result)` enum constructor
applied to a string; returns `none` where Python raises `ValueError`
(an unrecognised value). -/
def PingStatus.ofValue (s : String) : Option PingStatus :=
  if s = "Healthy" then some .HEALTHY
  else if s = "HealthyBusy" then some .HEALTHY_BUSY
  else none

/-- Modelled from the spec: directive-name constant from `models.py`;
spec section 6 lists the five payload values. -/
def TASK_ACTION_PING_STATUS : String := "ping_status"

/-- Modelled from the spec: directive-name constant from `models.py`. -/
def TASK_ACTION_JOB_STATUS : String := "job_status"

/-- Modelled from the spec: directive-name constant from `models.py`. -/
def TASK_ACTION_FORCE_HEALTHY : String := "force_healthy"

/-- Modelled from the spec: directive-name constant from `models.py`. -/
def TASK_ACTION_FORCE_BUSY : String := "force_busy"

/-- Modelled from the spec: directive-name constant from `models.py`. -/
def TASK_ACTION_CLEAR_FORCED_STATUS : String := "clear_forced_status"

/-- The `task_info` dict built by `add_async_task` / the `@async_task`
wrapper: always carries `"name"` and `"start_time"`; `"metadata"` only
when a truthy metadata argument was given.  Being a non-empty dict it is
always truthy in Python. -/
structure TaskInfo where
  name : String
  start_time : Nat
  metadata : Option (List (String × String))
deriving DecidableEq, Repr

/-- Result of `str(e)` and `type(e).__name__` for a raised Python
exception: the two pieces of a fault the code ever consults. -/
structure Fault where
  msg : String
  typeName : String
deriving DecidableEq, Repr

/-- A value flowing through `_convert_to_sse`.  `dumps` is the result of
`json.dumps(chunk)` (`none` where it raises `TypeError`/`ValueError`);
`dumpsStr` is the result of the fallback `json.dumps(str(chunk))`
(`none` where that raises too, e.g. a `__str__` raising `TypeError`);
`typeName` is `type(chunk).__name__`. -/
structure Chunk where
  dumps : Option String
  dumpsStr : Option String
  typeName : String
deriving DecidableEq, Repr

/-- `RequestContext` from `context.py` as used by `app.py`: only the
`session_id` field is constructed and read. -/
structure RequestContext where
  session_id : Option String
deriving DecidableEq, Repr

/-- An invocation payload after `request.json()`: the value of the
`"_agent_core_app_action"` key if present (the spec restricts it to the
five directive strings, so it is modelled as a string; `""` is the falsy
string), plus the rest of the JSON object, opaque to the orchestrator. -/
structure Payload where
  action : Option String
  body : String
deriving DecidableEq, Repr

/-- The arguments a registered handler is called with:
`(payload,)` or `(payload, request_context)`. -/
inductive HandlerArgs
  | payloadOnly (p : Payload)
  | withContext (p : Payload) (c : RequestContext)
deriving DecidableEq, Repr

/-- What a handler call produces, as discriminated by
`_handle_invocation`: a plain value (`JSONResponse(result)`), a
synchronous generator, an async generator, or a raised exception.  A
generator is modelled by the list of items it yields before it either
exhausts (`fault = none`) or raises (`fault = some e`). -/
inductive HandlerOutcome
  | value (v : Chunk)
  | syncGen (items : List Chunk) (fault : Option Fault)
  | asyncGen (items : List Chunk) (fault : Option Fault)
  | raises (e : Fault)
deriving DecidableEq, Repr

/-- A registered entrypoint handler: `sigParams` is the parameter-name
list produced by `inspect.signature` (`none` where inspection raises),
`run` is the handler's behaviour as a function of its actual call
arguments. -/
structure HandlerVal where
  sigParams : Option (List String)
  run : HandlerArgs → HandlerOutcome

/-- The outcome of a custom ping handler call as classified by
`get_current_ping_status`: it can raise, return a string (fed to
`PingStatus(...)`), return a `PingStatus`, return `None` (falls through
to automatic), or return some other truthy object (stored as the
status; its later `.value` access raises). -/
inductive PingHandlerOutcome
  | raises
  | returnsString (s : String)
  | returnsStatus (s : PingStatus)
  | returnsNone
  | returnsOther (typeName : String)
deriving DecidableEq, Repr

/-- What `get_current_ping_status` resolves to: a genuine `PingStatus`,
or a non-status object a custom handler returned (`.value` on it
raises `AttributeError`). -/
inductive ResolvedPing
  | ok (s : PingStatus)
  | other (typeName : String)
deriving DecidableEq, Repr

/-- The mutable state of one `BedrockAgentCoreApp` instance, as set up
in `__init__` and mutated by the methods below.  `last_known_status` is
`none` while the `_last_known_status` attribute does not exist yet;
`permits` is the number of free permits of `_invocation_semaphore`
(2 at construction); `debug` is the constructor flag. -/
structure AppState where
  handlers_main : Option HandlerVal
  ping_handler : Option PingHandlerOutcome
  active_tasks : List (Int × TaskInfo)
  forced_ping_status : Option PingStatus
  last_known_status : Option ResolvedPing
  last_status_update_time : Nat
  permits : Nat
  debug : Bool

/-- Python dict assignment `d[k] = v` on the `_active_tasks` dict:
replaces in place when the key exists, appends otherwise (dicts keep
insertion order). -/
def dict_insert (l : List (Int × TaskInfo)) (k : Int) (v : TaskInfo) :
    List (Int × TaskInfo) :=
  match l with
  | [] => [(k, v)]
  | (k0, v0) :: rest =>
    if k0 = k then (k, v) :: rest else (k0, v0) :: dict_insert rest k v

/-- Python `d.pop(k, None)` on `_active_tasks`: the popped value (if
any) and the remaining dict. -/
def dict_pop (l : List (Int × TaskInfo)) (k : Int) :
    Option TaskInfo × List (Int × TaskInfo) :=
  match l with
  | [] => (none, [])
  | (k0, v0) :: rest =>
    if k0 = k then (some v0, rest)
    else
      let r := dict_pop rest k
      (r.1, (k0, v0) :: r.2)

/-- Key membership in the `_active_tasks` dict. -/
def dict_contains (l : List (Int × TaskInfo)) (k : Int) : Bool :=
  l.any (fun kv => kv.1 = k)

/-- `if metadata:` in `add_async_task`: a falsy metadata argument
(`None` or an empty dict) is not stored. -/
def normalize_metadata (m : Option (List (String × String))) :
    Option (List (String × String)) :=
  match m with
  | none => none
  | some l => if l.isEmpty then none else some l

/-- `add_async_task(name, metadata)`: inserts a fresh task under the
generated id `task_id` with `start_time = now`.  The id generation
(`hash(str(uuid.uuid4()))`) is modelled by passing the generated id in. -/
def add_async_task (st : AppState) (task_id : Int) (name : String)
    (metadata : Option (List (String × String))) (now : Nat) : AppState :=
  { st with active_tasks := dict_insert st.active_tasks task_id (TaskInfo.mk name now (normalize_metadata metadata)) }

/-- `complete_async_task(task_id)`: pops the entry and reports whether
it was found (a present `task_info` dict is non-empty, hence truthy). -/
def complete_async_task (st : AppState) (task_id : Int) : Bool × AppState :=
  match dict_pop st.active_tasks task_id with
  | (some _, rest) => (true, { st with active_tasks := rest })
  | (none, _) => (false, st)

/-- One entry of the `running_jobs` list built by
`get_async_task_info`: `\x7b"name": ..., "duration": now - start_time\x7d`. -/
structure RunningJob where
  name : String
  duration : Int
deriving DecidableEq, Repr

/-- `get_async_task_info()`: point-in-time snapshot
`\x7b"active_count": len, "running_jobs": [...]\x7d` computed from `now`.
The per-task `try/except continue` never fires in the model because
every `TaskInfo` carries its keys. -/
def get_async_task_info (st : AppState) (now : Nat) :
    Nat × List RunningJob :=
  (st.active_tasks.length,
    st.active_tasks.map (fun kv =>
      ⟨kv.2.name, (now : Int) - (kv.2.start_time : Int)⟩))

/-- The custom-ping-handler block of `get_current_ping_status`:
`none` means the `try` body left `current_status` at `None` (the handler
raised, returned `None`, or returned a string `PingStatus(...)`
rejects — that `ValueError` is caught by the same `except`). -/
def resolve_custom (h : PingHandlerOutcome) : Option ResolvedPing :=
  match h with
  | .raises => none
  | .returnsString s =>
    match PingStatus.ofValue s with
    | some ps => some (.ok ps)
    | none => none
  | .returnsStatus ps => some (.ok ps)
  | .returnsNone => none
  | .returnsOther t => some (.other t)

/-- The value `get_current_ping_status` resolves (forced override,
else custom handler, else automatic from registry emptiness). -/
def resolve_ping (st : AppState) : ResolvedPing :=
  let current : Option ResolvedPing :=
    match st.forced_ping_status with
    | some f => some (.ok f)
    | none =>
      match st.ping_handler with
      | some h => resolve_custom h
      | none => none
  match current with
  | some c => c
  | none =>
    if st.active_tasks.isEmpty then .ok .HEALTHY else .ok .HEALTHY_BUSY

/-- `get_current_ping_status()`: resolves the status and records
`_last_known_status` / `_last_status_update_time` only when the
resolved value differs from the last known one (or none was known). -/
def get_current_ping_status (st : AppState) (now : Nat) :
    ResolvedPing × AppState :=
  if st.last_known_status = some (resolve_ping st) then
    (resolve_ping st, st)
  else
    (resolve_ping st,
      { st with last_known_status := some (resolve_ping st),
                last_status_update_time := now })

/-- `force_ping_status(status)`. -/
def force_ping_status (st : AppState) (s : PingStatus) : AppState :=
  { st with forced_ping_status := some s }

/-- `clear_forced_ping_status()`. -/
def clear_forced_ping_status (st : AppState) : AppState :=
  { st with forced_ping_status := none }

/-- The `/ping` response: always built with the default `200` code. -/
structure PingResponse where
  code : Nat
  status : String
  time_of_last_update : Nat
deriving DecidableEq, Repr

/-- `_handle_ping(request)`: body `\x7b"status": status.value,
"time_of_last_update": int(self._last_status_update_time)\x7d`; when the
resolved object has no `.value` (a non-status object from a custom
handler) the `except` answers `200` with `PingStatus.HEALTHY.value` and
the current time.  The resolution's state mutation happened before the
failing attribute access, so it persists in both branches. -/
def handle_ping (st : AppState) (now : Nat) : PingResponse × AppState :=
  let r := get_current_ping_status st now
  match r.1 with
  | .ok s => (⟨200, s.value, r.2.last_status_update_time⟩, r.2)
  | .other _ => (⟨200, PingStatus.HEALTHY.value, now⟩, r.2)

/-- One character of `json.dumps` string escaping: backslash, quote and
the common control characters. -/
def jsonEscapeChar (c : Char) : String :=
  if c = '\\' then "\\\\"
  else if c = '"' then "\\\""
  else if c = '\n' then "\\n"
  else if c = '\t' then "\\t"
  else if c = '\r' then "\\r"
  else String.singleton c

/-- `json.dumps` escaping of a string body. -/
def jsonEscape (s : String) : String :=
  String.join (s.toList.map jsonEscapeChar)

/-- `json.dumps` of a Python string: quoted, escaped. -/
def jsonStr (s : String) : String := "\"" ++ jsonEscape s ++ "\""

/-- `json.dumps(\x7b"error": "Serialization failed", "original_type":
type(chunk).__name__\x7d)`, the synthesized error body of
`_convert_to_sse`'s last resort. -/
def serialization_error_body (typeName : String) : String :=
  "\x7b\"error\": \"Serialization failed\", \"original_type\": "
    ++ jsonStr typeName ++ "\x7d"

/-- `_convert_to_sse(chunk)`: `data: <json>\n\n`, retrying with
`json.dumps(str(chunk))` on serialization failure, and falling back to
the synthesized error body when that fails too.  Total: it never
propagates a fault. -/
def convert_to_sse (c : Chunk) : String :=
  match c.dumps with
  | some s => "data: " ++ s ++ "\n\n"
  | none =>
    match c.dumpsStr with
    | some s => "data: " ++ s ++ "\n\n"
    | none => "data: " ++ serialization_error_body c.typeName ++ "\n\n"

/-- `json.dumps` of the `error_event` dict built by the stream
wrappers: `\x7b"error": str(e), "error_type": type(e).__name__,
"message": "An error occurred during streaming"\x7d`. -/
def error_event_dumps (e : Fault) : String :=
  "\x7b\"error\": " ++ jsonStr e.msg ++ ", \"error_type\": "
    ++ jsonStr e.typeName
    ++ ", \"message\": \"An error occurred during streaming\"\x7d"

/-- The `error_event` dict as a chunk: an all-string dict, so
`json.dumps` succeeds and only `dumps` is ever consulted. -/
def error_event_chunk (e : Fault) : Chunk :=
  ⟨some (error_event_dumps e), none, "dict"⟩

/-- One SSE frame, tagged by the yield site that produced it: the
`for` loop over the generator (`data`) or the `except` arm (`error`).
Both are `data: ...` byte chunks on the wire. -/
inductive Frame
  | data (bytes : String)
  | error (bytes : String)
deriving DecidableEq, Repr

/-- Whether a frame came from the `except` arm. -/
def Frame.isError : Frame → Bool
  | .data _ => false
  | .error _ => true

/-- `_stream_with_error_handling(generator)` (async): yields one
converted frame per item produced, and, when production raised, one
trailing converted `error_event` frame, then ends. -/
def stream_with_error_handling (items : List Chunk)
    (fault : Option Fault) : List Frame :=
  items.map (fun c => Frame.data (convert_to_sse c)) ++
    match fault with
    | none => []
    | some e => [Frame.error (convert_to_sse (error_event_chunk e))]

/-- `_sync_stream_with_error_handling(generator)`: same body as the
async wrapper, over a synchronous generator. -/
def sync_stream_with_error_handling (items : List Chunk)
    (fault : Option Fault) : List Frame :=
  items.map (fun c => Frame.data (convert_to_sse c)) ++
    match fault with
    | none => []
    | some e => [Frame.error (convert_to_sse (error_event_chunk e))]

/-- `_takes_context(handler)`: `len(params) >= 2 and params[1] ==
"context"`, `False` when `inspect.signature` raised. -/
def takes_context (h : HandlerVal) : Bool :=
  match h.sigParams with
  | none => false
  | some (_ :: p1 :: _) => p1 = "context"
  | some _ => false

/-- The argument tuple built in `_invoke_handler`:
`(payload, request_context) if takes_context else (payload,)`. -/
def handler_args (takes : Bool) (payload : Payload)
    (ctx : RequestContext) : HandlerArgs :=
  if takes then .withContext payload ctx else .payloadOnly payload

/-- Response bodies produced by the orchestrator, structured by shape. -/
inductive RespBody
  | errorMsg (msg : String)
  | errorDetails (msg details : String)
  | statusBody (status : String) (time_of_last_update : Nat)
  | jobStatus (active_count : Nat) (running_jobs : List RunningJob)
  | forcedStatus (s : String)
  | result (v : Chunk)
deriving DecidableEq, Repr

/-- A `/invocations` response: a JSON response with a status code, or a
`text/event-stream` streaming response. -/
inductive InvocationOutcome
  | json (code : Nat) (body : RespBody)
  | stream (frames : List Frame)
deriving DecidableEq, Repr

/-- Outcome of `_invoke_handler`: the early rejection (it returns the
busy `503` `JSONResponse` *object* as its result value), or the handler
ran (its raised exception propagates to the caller after the permit is
released). -/
inductive InvokeOutcome
  | busy
  | completed (r : HandlerOutcome)
deriving DecidableEq, Repr

/-- `_invoke_handler(handler, request_context, takes_context, payload)`:
rejects immediately when the semaphore is saturated (`locked()`),
otherwise acquires a permit, runs the handler and releases the permit on
every exit path (the `async with` releases also when the handler
raises). -/
def invoke_handler (st : AppState) (h : HandlerVal)
    (ctx : RequestContext) (takes : Bool) (payload : Payload) :
    InvokeOutcome × AppState :=
  if st.permits = 0 then (.busy, st)
  else
    let acquired := { st with permits := st.permits - 1 }
    let r := h.run (handler_args takes payload ctx)
    (.completed r, { acquired with permits := acquired.permits + 1 })

/-- How `_handle_invocation` renders a completed handler result:
generators become SSE streams, plain values a `200` JSON response, and a
propagated handler exception is caught by the outer `except` as
`500 \x7b"error": str(e)\x7d`. -/
def response_of (r : HandlerOutcome) : InvocationOutcome :=
  match r with
  | .raises e => .json 500 (.errorMsg e.msg)
  | .value v => .json 200 (.result v)
  | .syncGen items fault => .stream (sync_stream_with_error_handling items fault)
  | .asyncGen items fault => .stream (stream_with_error_handling items fault)

/-- The non-debug tail of `_handle_invocation`: resolve the entrypoint
(`500` if absent), inspect its signature, call `_invoke_handler` and
render the result.  When `_invoke_handler` answered its busy `503`
`JSONResponse` object, that object fails both generator checks and is
re-wrapped as `JSONResponse(result)`; rendering that wrapper calls
`json.dumps` on a `JSONResponse`, which raises `TypeError: Object of
type JSONResponse is not JSON serializable`, and the generic `except`
turns the request into a `500` with that message — the built `503`
never reaches the caller. -/
def dispatch_invocation (st : AppState) (payload : Payload)
    (ctx : RequestContext) : InvocationOutcome × AppState :=
  match st.handlers_main with
  | none => (.json 500 (.errorMsg "No entrypoint defined"), st)
  | some h =>
    let r := invoke_handler st h ctx (takes_context h) payload
    match r.1 with
    | .busy =>
      (.json 500 (.errorMsg "Object of type JSONResponse is not JSON serializable"), r.2)
    | .completed res => (response_of res, r.2)

/-- `_handle_task_action(payload)`: `none` when the directive field is
absent or falsy; otherwise the five known directives run (the
`ping_status` body raises on a non-status resolved object, answered
`500` by the surrounding `except`), and any other directive gets the
`400` unknown-action response. -/
def handle_task_action (st : AppState) (payload : Payload) (now : Nat) :
    Option (Nat × RespBody) × AppState :=
  match payload.action with
  | none => (none, st)
  | some action =>
    if action = "" then (none, st)
    else if action = TASK_ACTION_PING_STATUS then
      let r := get_current_ping_status st now
      match r.1 with
      | .ok s =>
        (some (200, .statusBody s.value r.2.last_status_update_time), r.2)
      | .other t =>
        (some (500, .errorDetails "Debug action failed" t), r.2)
    else if action = TASK_ACTION_JOB_STATUS then
      let info := get_async_task_info st now
      (some (200, .jobStatus info.1 info.2), st)
    else if action = TASK_ACTION_FORCE_HEALTHY then
      (some (200, .forcedStatus "Healthy"), force_ping_status st .HEALTHY)
    else if action = TASK_ACTION_FORCE_BUSY then
      (some (200, .forcedStatus "HealthyBusy"), force_ping_status st .HEALTHY_BUSY)
    else if action = TASK_ACTION_CLEAR_FORCED_STATUS then
      (some (200, .forcedStatus "Cleared"), clear_forced_ping_status st)
    else
      (some (400, .errorMsg ("Unknown action: " ++ action)), st)

/-- `_handle_invocation(request)` after a successful JSON parse: the
debug-directive check runs only when `self.debug` is set and only
short-circuits when it returns a response; otherwise the ordinary
dispatch path runs on the same payload. -/
def handle_invocation (st : AppState) (payload : Payload)
    (ctx : RequestContext) (now : Nat) : InvocationOutcome × AppState :=
  if st.debug then
    match handle_task_action st payload now with
    | (some (code, body), st1) => (.json code body, st1)
    | (none, st1) => dispatch_invocation st1 payload ctx
  else
    dispatch_invocation st payload ctx

/-- The admission decision of `_invoke_handler`, in isolation, so that
overlapping invocations can be interleaved: the `locked()` check plus
the semaphore acquire.  `permits` is the free-permit count. -/
inductive AdmissionDecision
  | admitted
  | rejected (code : Nat) (body : RespBody)
deriving DecidableEq, Repr

/-- The entry step of `_invoke_handler` on the shared semaphore: a
saturated pool answers the `503` body at once without touching the
pool; otherwise one permit is taken. -/
def try_enter (permits : Nat) : AdmissionDecision × Nat :=
  if permits = 0 then
    (.rejected 503 (.errorMsg "Server busy - maximum concurrent requests reached"),
      permits)
  else (.admitted, permits - 1)

/-- The exit of the `async with` block: the permit is handed back. -/
def exit_invocation (permits : Nat) : Nat := permits + 1

/-- A JSON-serializable sample chunk used by concrete witnesses. -/
def sampleChunk : Chunk :=
  ⟨some "\x7b\"ok\": 1\x7d", some "\"str\"", "dict"⟩

/-- A sample fault used by concrete witnesses. -/
def sampleFault : Fault := ⟨"boom", "ValueError"⟩

/-- A sample request context used by concrete witnesses. -/
def sampleCtx : RequestContext := ⟨some "session-1"⟩

/-- A sample entrypoint handler taking only the payload. -/
def sampleHandler : HandlerVal :=
  ⟨some ["payload"], fun _ => .value sampleChunk⟩

/-- A sample entrypoint handler whose signature is
`(payload, context)`. -/
def sampleCtxHandler : HandlerVal :=
  ⟨some ["payload", "context"], fun _ => .value sampleChunk⟩

/-- A freshly constructed app (entrypoint registered, debug off):
no tasks, no override, no custom ping handler, 2 free permits. -/
def baseState : AppState :=
  ⟨some sampleHandler, none, [], none, none, 0, 2, false⟩

/-- The same app constructed with `debug = True`. -/
def debugState : AppState :=
  ⟨some sampleHandler, none, [], none, none, 0, 2, true⟩

theorem get_current_ping_status_fst (st : AppState) (now : Nat) :
    (get_current_ping_status st now).1 = resolve_ping st := by
  unfold get_current_ping_status
  split <;> rfl

/-- Claim C1: a lazy sequence of N items with no fault yields exactly the
N converted `Data` frames in production order and no `Error` frame; a
sequence raising after K items yields exactly the K `Data` frames
followed by exactly one `Error` frame carrying the fault's message and
type, and nothing after it; the synchronous and cooperative wrappers
behave identically. -/
theorem stream_wrapper_spec (items : List Chunk) (e : Fault) :
    stream_with_error_handling items none
        = items.map (fun c => Frame.data (convert_to_sse c))
    ∧ (stream_with_error_handling items none).countP (fun f => f.isError) = 0
    ∧ stream_with_error_handling items (some e)
        = items.map (fun c => Frame.data (convert_to_sse c))
            ++ [Frame.error ("data: " ++ error_event_dumps e ++ "\n\n")]
    ∧ error_event_dumps e
        = "\x7b\"error\": " ++ jsonStr e.msg ++ ", \"error_type\": "
            ++ jsonStr e.typeName
            ++ ", \"message\": \"An error occurred during streaming\"\x7d"
    ∧ (stream_with_error_handling items (some e)).countP (fun f => !f.isError)
        = items.length
    ∧ (stream_with_error_handling items (some e)).countP (fun f => f.isError) = 1
    ∧ sync_stream_with_error_handling items none
        = stream_with_error_handling items none
    ∧ sync_stream_with_error_handling items (some e)
        = stream_with_error_handling items (some e) := by
  refine ⟨by simp [stream_with_error_handling], ?_, ?_, rfl, ?_, ?_, rfl, rfl⟩
  · simp [stream_with_error_handling, List.countP_map, Function.comp,
      Frame.isError]
  · simp [stream_with_error_handling, convert_to_sse, error_event_chunk]
  · simp [stream_with_error_handling, List.countP_append, List.countP_map,
      Function.comp, Frame.isError, List.countP_cons]
  · simp [stream_with_error_handling, List.countP_append, List.countP_map,
      Function.comp, Frame.isError, List.countP_cons]

/-- Claim C6: the frame converter serializes the item to JSON as a
`data: <json>` frame, retries with the item's textual representation
when that fails, emits a synthesized error frame naming the offending
value's type when that fails too, and in every case returns a
well-formed frame without propagating a fault. -/
theorem convert_to_sse_spec (c : Chunk) :
    (∀ s, c.dumps = some s → convert_to_sse c = "data: " ++ s ++ "\n\n")
    ∧ (∀ s, c.dumps = none → c.dumpsStr = some s →
        convert_to_sse c = "data: " ++ s ++ "\n\n")
    ∧ (c.dumps = none → c.dumpsStr = none →
        convert_to_sse c
          = "data: " ++ serialization_error_body c.typeName ++ "\n\n")
    ∧ ∃ body, convert_to_sse c = "data: " ++ body ++ "\n\n" := by
  obtain ⟨d, ds, t⟩ := c
  refine ⟨?_, ?_, ?_, ?_⟩
  · rintro s rfl
    rfl
  · rintro s rfl rfl
    rfl
  · rintro rfl rfl
    rfl
  · cases d with
    | some s => exact ⟨s, rfl⟩
    | none =>
      cases ds with
      | some s => exact ⟨s, rfl⟩
      | none => exact ⟨serialization_error_body t, rfl⟩

/-- Witness for C6: evaluating the converter at a chunk whose both
serialization attempts fail yields the synthesized error frame. -/
theorem convert_to_sse_spec_witness :
    convert_to_sse (Chunk.mk none none "Widget")
      = "data: " ++ serialization_error_body "Widget" ++ "\n\n" :=
  (convert_to_sse_spec (Chunk.mk none none "Widget")).2.2.1 rfl rfl

/-- Claim C2 (code bug): with no free permit, `_invoke_handler` itself
builds the `503` busy `JSONResponse` without invoking the handler,
without blocking and without touching the pool; admitted invocations
release their permit on every exit path, and at the semaphore the
capacity-2 scenario holds (two admitted, a third rejected while they
run, full capacity restored after both exit).  But `_handle_invocation`
re-wraps the busy response object in `JSONResponse(result)`, whose
rendering raises `TypeError`, so the request is actually answered `500`
with the serializer's message and the claimed `503` never reaches the
caller — for every handler alike. -/
theorem admission_bug_spec (st st2 : AppState) (h : HandlerVal)
    (payload : Payload) (ctx : RequestContext) (takes : Bool)
    (hperm : st.permits = 0) (hmain : st.handlers_main = some h)
    (hfree : st2.permits ≠ 0) :
    invoke_handler st h ctx takes payload = (.busy, st)
    ∧ dispatch_invocation st payload ctx
        = (.json 500
            (.errorMsg "Object of type JSONResponse is not JSON serializable"),
            st)
    ∧ (∀ b, (dispatch_invocation st payload ctx).1 ≠ .json 503 b)
    ∧ (invoke_handler st2 h ctx takes payload).2.permits = st2.permits
    ∧ try_enter 2 = (.admitted, 1)
    ∧ try_enter 1 = (.admitted, 0)
    ∧ try_enter 0
        = (.rejected 503
            (.errorMsg "Server busy - maximum concurrent requests reached"), 0)
    ∧ exit_invocation (exit_invocation 0) = 2
    ∧ try_enter (exit_invocation (exit_invocation 0)) = (.admitted, 1) := by
  refine ⟨?_, ?_, ?_, ?_, rfl, rfl, rfl, rfl, rfl⟩
  · simp [invoke_handler, hperm]
  · simp [dispatch_invocation, hmain, invoke_handler, hperm]
  · intro b
    simp [dispatch_invocation, hmain, invoke_handler, hperm]
  · simp only [invoke_handler, if_neg hfree]
    exact Nat.succ_pred_eq_of_pos (Nat.pos_of_ne_zero hfree)

/-- Witness for the C2 bug theorem: at a concrete saturated state the
invocation is answered the serializer `500`, not the busy `503`, and
the state is left as it was. -/
theorem admission_bug_spec_witness :
    dispatch_invocation { baseState with permits := 0 }
        (Payload.mk none "x") sampleCtx
      = (.json 500
          (.errorMsg "Object of type JSONResponse is not JSON serializable"),
          { baseState with permits := 0 }) :=
  (admission_bug_spec { baseState with permits := 0 } baseState sampleHandler
    (Payload.mk none "x") sampleCtx false rfl rfl (by decide)).2.1

/-- Claim C3: status resolution applies the fixed precedence: a set
forced override is returned; otherwise a registered custom handler's
returned status is returned, and a raising handler is swallowed with
fall-through to automatic; with neither, the status is HEALTHY_BUSY iff
the task registry is non-empty and HEALTHY iff it is empty. -/
theorem ping_precedence_spec (st : AppState) (now : Nat) :
    (∀ f, st.forced_ping_status = some f →
        (get_current_ping_status st now).1 = .ok f)
    ∧ (∀ s, st.forced_ping_status = none →
        st.ping_handler = some (.returnsStatus s) →
        (get_current_ping_status st now).1 = .ok s)
    ∧ (st.forced_ping_status = none → st.ping_handler = some .raises →
        (get_current_ping_status st now).1
          = (if st.active_tasks.isEmpty then .ok .HEALTHY
              else .ok .HEALTHY_BUSY))
    ∧ (st.forced_ping_status = none → st.ping_handler = none →
        ((get_current_ping_status st now).1 = .ok .HEALTHY
            ↔ st.active_tasks.isEmpty)
        ∧ ((get_current_ping_status st now).1 = .ok .HEALTHY_BUSY
            ↔ ¬ st.active_tasks.isEmpty)) := by
  refine ⟨?_, ?_, ?_, ?_⟩
  · intro f hf
    rw [get_current_ping_status_fst]
    simp [resolve_ping, hf]
  · intro s h1 h2
    rw [get_current_ping_status_fst]
    simp [resolve_ping, resolve_custom, h1, h2]
  · intro h1 h2
    rw [get_current_ping_status_fst]
    simp [resolve_ping, resolve_custom, h1, h2]
  · intro h1 h2
    simp only [get_current_ping_status_fst]
    by_cases he : st.active_tasks.isEmpty <;>
      simp [resolve_ping, h1, h2, he]

/-- Witness for C3: with a forced HealthyBusy override set on an
otherwise idle app, resolution returns the forced value. -/
theorem ping_precedence_spec_witness :
    (get_current_ping_status
        { baseState with forced_ping_status := some .HEALTHY_BUSY } 5).1
      = .ok .HEALTHY_BUSY :=
  (ping_precedence_spec
    { baseState with forced_ping_status := some .HEALTHY_BUSY } 5).1
    .HEALTHY_BUSY rfl

theorem dict_pop_fst_isSome (l : List (Int × TaskInfo)) (k : Int) :
    (dict_pop l k).1.isSome = dict_contains l k := by
  induction l with
  | nil => rfl
  | cons kv rest ih =>
    obtain ⟨k0, v0⟩ := kv
    by_cases hk : k0 = k
    · simp [dict_pop, dict_contains, hk]
    · simp only [dict_pop, if_neg hk]
      simp only [dict_contains, List.any_cons] at ih ⊢
      simp [hk, ih]

/-- Claim C4: `complete_async_task` returns true iff the id is present,
in which case exactly that entry is removed; an absent id (including an
already-completed one) returns false without raising; registering
"ingest" into an empty registry makes the snapshot report one entry
named "ingest" with non-negative elapsed time, the first completion of
its id returns true and the second returns false. -/
theorem complete_async_task_spec (st st0 : AppState) (id tid : Int)
    (t1 t2 : Nat) (hempty : st0.active_tasks = []) (ht : t1 ≤ t2) :
    ((complete_async_task st id).1 = true
        ↔ dict_contains st.active_tasks id = true)
    ∧ (∀ info rest, dict_pop st.active_tasks id = (some info, rest) →
        complete_async_task st id = (true, { st with active_tasks := rest }))
    ∧ ((dict_pop st.active_tasks id).1 = none →
        complete_async_task st id = (false, st))
    ∧ get_async_task_info (add_async_task st0 tid "ingest" none t1) t2
        = (1, [RunningJob.mk "ingest" ((t2 : Int) - (t1 : Int))])
    ∧ (0 : Int) ≤ (t2 : Int) - (t1 : Int)
    ∧ (complete_async_task (add_async_task st0 tid "ingest" none t1) tid).1
        = true
    ∧ (complete_async_task
        (complete_async_task (add_async_task st0 tid "ingest" none t1) tid).2
        tid).1 = false := by
  refine ⟨?_, ?_, ?_, ?_, by omega, ?_, ?_⟩
  · rw [← dict_pop_fst_isSome]
    unfold complete_async_task
    rcases hdp : dict_pop st.active_tasks id with ⟨o, rest⟩
    cases o <;> simp [hdp]
  · intro info rest hdp
    unfold complete_async_task
    rw [hdp]
  · intro hnone
    unfold complete_async_task
    rcases hdp : dict_pop st.active_tasks id with ⟨o, rest⟩
    rw [hdp] at hnone
    cases o with
    | none => simp
    | some info => exact absurd hnone (by simp)
  · simp [add_async_task, hempty, dict_insert, normalize_metadata,
      get_async_task_info]
  · simp [add_async_task, hempty, dict_insert, normalize_metadata,
      complete_async_task, dict_pop]
  · simp [add_async_task, hempty, dict_insert, normalize_metadata,
      complete_async_task, dict_pop]

/-- Witness for C4: registering "ingest" (id 7, start 10) into a fresh
app, the snapshot at time 12 shows one task with elapsed 2; completing
id 7 succeeds once and fails the second time. -/
theorem complete_async_task_spec_witness :
    get_async_task_info (add_async_task baseState 7 "ingest" none 10) 12
        = (1, [RunningJob.mk "ingest" ((12 : Int) - (10 : Int))])
    ∧ (complete_async_task (add_async_task baseState 7 "ingest" none 10) 7).1
        = true
    ∧ (complete_async_task
        (complete_async_task (add_async_task baseState 7 "ingest" none 10) 7).2
        7).1 = false := by
  have h := complete_async_task_spec baseState baseState 3 7 10 12 rfl
    (by decide)
  exact ⟨h.2.2.2.1, h.2.2.2.2.2.1, h.2.2.2.2.2.2⟩

theorem get_current_ping_status_frame (st : AppState) (now : Nat) :
    (get_current_ping_status st now).2.permits = st.permits
    ∧ (get_current_ping_status st now).2.handlers_main = st.handlers_main
    ∧ (get_current_ping_status st now).2.active_tasks = st.active_tasks
    ∧ (get_current_ping_status st now).2.forced_ping_status
        = st.forced_ping_status
    ∧ (get_current_ping_status st now).2.ping_handler = st.ping_handler
    ∧ (get_current_ping_status st now).2.debug = st.debug := by
  unfold get_current_ping_status
  split <;> simp

/-- Claim C5: every ping request is answered `200` with a status object
(`"Healthy"` or `"HealthyBusy"`); when body construction raises (a
non-status object resolved from a custom handler has no `.value`) the
response defaults to Healthy with the current time; the ping path leaves
the admission pool and the registered handlers untouched. -/
theorem ping_endpoint_spec (st : AppState) (now : Nat) :
    (handle_ping st now).1.code = 200
    ∧ ((handle_ping st now).1.status = "Healthy"
        ∨ (handle_ping st now).1.status = "HealthyBusy")
    ∧ (∀ t, (get_current_ping_status st now).1 = .other t →
        (handle_ping st now).1 = PingResponse.mk 200 "Healthy" now)
    ∧ (handle_ping st now).2.permits = st.permits
    ∧ (handle_ping st now).2.handlers_main = st.handlers_main := by
  have hframe := get_current_ping_status_frame st now
  refine ⟨?_, ?_, ?_, ?_, ?_⟩
  · cases hres : (get_current_ping_status st now).1 with
    | ok s => simp [handle_ping, hres]
    | other t => simp [handle_ping, hres]
  · cases hres : (get_current_ping_status st now).1 with
    | ok s => cases s <;> simp [handle_ping, hres, PingStatus.value]
    | other t => simp [handle_ping, hres, PingStatus.value]
  · intro t hres
    simp [handle_ping, hres, PingStatus.value]
  · cases hres : (get_current_ping_status st now).1 with
    | ok s => simpa [handle_ping, hres] using hframe.1
    | other t => simpa [handle_ping, hres] using hframe.1
  · cases hres : (get_current_ping_status st now).1 with
    | ok s => simpa [handle_ping, hres] using hframe.2.1
    | other t => simpa [handle_ping, hres] using hframe.2.1

/-- Witness for C5: on an app whose custom ping handler returned a
non-status object, the ping endpoint still answers `200 Healthy` with
the current time. -/
theorem ping_endpoint_spec_witness :
    (handle_ping { baseState with ping_handler := some (.returnsOther "int") }
        9).1
      = PingResponse.mk 200 "Healthy" 9 :=
  (ping_endpoint_spec
    { baseState with ping_handler := some (.returnsOther "int") } 9).2.2.1
    "int" rfl

/-- Counterexample to C7 as stated: with debug mode enabled, a payload
whose directive field holds the falsy string `""` (a directive value
other than the five names) is NOT answered with the unknown-action
`400`: `_handle_task_action` declines (`if not action`) and the payload
reaches the entrypoint handler, which answers `200`. -/
theorem debug_directive_falsy_counterexample :
    debugState.debug = true
    ∧ (Payload.mk (some "") "x").action = some ""
    ∧ (handle_invocation debugState (Payload.mk (some "") "x") sampleCtx 0).1
        = .json 200 (.result sampleChunk) :=
  ⟨rfl, rfl, rfl⟩

/-- Claim C7 (amended): with debug mode enabled, exactly the five
directive names are honored, and any other truthy (non-empty) directive
string is answered with the explicit unknown-action `400` failure; a
falsy directive value is not intercepted and falls through to the
ordinary handler path. -/
theorem debug_directive_spec (st : AppState) (payload : Payload)
    (ctx : RequestContext) (now : Nat) (a : String)
    (hdbg : st.debug = true) (ha : payload.action = some a) (hne : a ≠ "")
    (hu1 : a ≠ TASK_ACTION_PING_STATUS) (hu2 : a ≠ TASK_ACTION_JOB_STATUS)
    (hu3 : a ≠ TASK_ACTION_FORCE_HEALTHY) (hu4 : a ≠ TASK_ACTION_FORCE_BUSY)
    (hu5 : a ≠ TASK_ACTION_CLEAR_FORCED_STATUS) :
    handle_invocation st payload ctx now
        = (.json 400 (.errorMsg ("Unknown action: " ++ a)), st)
    ∧ handle_task_action st
          (Payload.mk (some TASK_ACTION_FORCE_HEALTHY) payload.body) now
        = (some (200, .forcedStatus "Healthy"), force_ping_status st .HEALTHY)
    ∧ handle_task_action st
          (Payload.mk (some TASK_ACTION_FORCE_BUSY) payload.body) now
        = (some (200, .forcedStatus "HealthyBusy"),
            force_ping_status st .HEALTHY_BUSY)
    ∧ handle_task_action st
          (Payload.mk (some TASK_ACTION_CLEAR_FORCED_STATUS) payload.body) now
        = (some (200, .forcedStatus "Cleared"), clear_forced_ping_status st)
    ∧ (handle_task_action st
          (Payload.mk (some TASK_ACTION_JOB_STATUS) payload.body) now).1
        = some (200, .jobStatus (get_async_task_info st now).1
            (get_async_task_info st now).2)
    ∧ (handle_task_action st
          (Payload.mk (some TASK_ACTION_PING_STATUS) payload.body) now).1
        ≠ none := by
  refine ⟨?_, ?_, ?_, ?_, ?_, ?_⟩
  · simp [handle_invocation, hdbg, handle_task_action, ha, hne, hu1, hu2,
      hu3, hu4, hu5]
  · simp [handle_task_action, TASK_ACTION_FORCE_HEALTHY,
      TASK_ACTION_PING_STATUS, TASK_ACTION_JOB_STATUS]
  · simp [handle_task_action, TASK_ACTION_FORCE_BUSY,
      TASK_ACTION_PING_STATUS, TASK_ACTION_JOB_STATUS,
      TASK_ACTION_FORCE_HEALTHY]
  · simp [handle_task_action, TASK_ACTION_CLEAR_FORCED_STATUS,
      TASK_ACTION_PING_STATUS, TASK_ACTION_JOB_STATUS,
      TASK_ACTION_FORCE_HEALTHY, TASK_ACTION_FORCE_BUSY]
  · simp [handle_task_action, TASK_ACTION_JOB_STATUS,
      TASK_ACTION_PING_STATUS]
  · cases hres : (get_current_ping_status st now).1 with
    | ok s => simp [handle_task_action, TASK_ACTION_PING_STATUS, hres]
    | other t => simp [handle_task_action, TASK_ACTION_PING_STATUS, hres]

/-- Witness for C7 (amended): in debug mode the unknown truthy directive
"bogus" is answered `400 Unknown action: bogus` with the state
unchanged. -/
theorem debug_directive_spec_witness :
    handle_invocation debugState (Payload.mk (some "bogus") "x") sampleCtx 0
      = (.json 400 (.errorMsg ("Unknown action: " ++ "bogus")), debugState) :=
  (debug_directive_spec debugState (Payload.mk (some "bogus") "x") sampleCtx
    0 "bogus" rfl rfl (by decide) (by decide) (by decide) (by decide)
    (by decide) (by decide)).1

theorem resolve_ping_congr (st1 st2 : AppState)
    (h1 : st1.forced_ping_status = st2.forced_ping_status)
    (h2 : st1.ping_handler = st2.ping_handler)
    (h3 : st1.active_tasks = st2.active_tasks) :
    resolve_ping st1 = resolve_ping st2 := by
  unfold resolve_ping
  rw [h1, h2, h3]

theorem get_current_ping_status_last_known (st : AppState) (now : Nat) :
    (get_current_ping_status st now).2.last_known_status
      = some (resolve_ping st) := by
  unfold get_current_ping_status
  split <;> simp_all

theorem get_current_ping_status_stable (st : AppState) (now : Nat)
    (h : st.last_known_status = some (resolve_ping st)) :
    (get_current_ping_status st now).2 = st := by
  unfold get_current_ping_status
  simp [h]

/-- Claim C8: the last-status-update timestamp moves iff the newly
resolved status differs from the previously resolved one (or none was
ever resolved); resolving the same status twice in a row changes
nothing; and force, clear, task registration and task completion never
touch the timestamp on their own. -/
theorem status_timestamp_spec (st : AppState) (now now2 t : Nat)
    (s : PingStatus) (tid id2 : Int) (nm : String)
    (md : Option (List (String × String))) :
    (st.last_known_status = some (resolve_ping st) →
        (get_current_ping_status st now).2 = st)
    ∧ (st.last_known_status ≠ some (resolve_ping st) →
        (get_current_ping_status st now).2.last_status_update_time = now
        ∧ (get_current_ping_status st now).2.last_known_status
            = some (resolve_ping st))
    ∧ (get_current_ping_status (get_current_ping_status st now).2 now2).2
        = (get_current_ping_status st now).2
    ∧ (force_ping_status st s).last_status_update_time
        = st.last_status_update_time
    ∧ (clear_forced_ping_status st).last_status_update_time
        = st.last_status_update_time
    ∧ (add_async_task st tid nm md t).last_status_update_time
        = st.last_status_update_time
    ∧ (complete_async_task st id2).2.last_status_update_time
        = st.last_status_update_time := by
  refine ⟨get_current_ping_status_stable st now, ?_, ?_, rfl, rfl, rfl, ?_⟩
  · intro hne
    constructor
    · unfold get_current_ping_status
      simp [hne]
    · exact get_current_ping_status_last_known st now
  · have hframe := get_current_ping_status_frame st now
    have hres : resolve_ping (get_current_ping_status st now).2
        = resolve_ping st :=
      resolve_ping_congr _ _ hframe.2.2.2.1 hframe.2.2.2.2.1 hframe.2.2.1
    exact get_current_ping_status_stable _ now2
      (by rw [get_current_ping_status_last_known, hres])
  · unfold complete_async_task
    rcases hdp : dict_pop st.active_tasks id2 with ⟨o, rest⟩
    cases o <;> simp

/-- Witness for C8: resolving on a state whose last known status equals
the freshly resolved one (idle app already known Healthy) leaves the
whole state, timestamp included, unchanged. -/
theorem status_timestamp_spec_witness :
    (get_current_ping_status
        { baseState with last_known_status := some (.ok .HEALTHY) } 99).2
      = { baseState with last_known_status := some (.ok .HEALTHY) } :=
  (status_timestamp_spec
    { baseState with last_known_status := some (.ok .HEALTHY) }
    99 0 0 .HEALTHY 0 0 "t" none).1 rfl

/-- Claim C9: the dispatcher decides by signature inspection whether the
handler expects a `RequestContext` second argument named `context`: if
so it is called with `(payload, context)`, otherwise with the payload
alone, and when signature inspection itself failed the handler is
called with the payload alone. -/
theorem context_injection_spec (st : AppState) (h : HandlerVal)
    (ctx : RequestContext) (payload : Payload) (hperm : st.permits ≠ 0) :
    (∀ p0 p1 rest, h.sigParams = some (p0 :: p1 :: rest) → p1 = "context" →
        (invoke_handler st h ctx (takes_context h) payload).1
          = .completed (h.run (.withContext payload ctx)))
    ∧ (∀ p0 p1 rest, h.sigParams = some (p0 :: p1 :: rest) →
        p1 ≠ "context" →
        (invoke_handler st h ctx (takes_context h) payload).1
          = .completed (h.run (.payloadOnly payload)))
    ∧ (h.sigParams = none →
        (invoke_handler st h ctx (takes_context h) payload).1
          = .completed (h.run (.payloadOnly payload)))
    ∧ (∀ ps, h.sigParams = some ps → ps.length < 2 →
        (invoke_handler st h ctx (takes_context h) payload).1
          = .completed (h.run (.payloadOnly payload))) := by
  refine ⟨?_, ?_, ?_, ?_⟩
  · intro p0 p1 rest hsig hctx
    simp [invoke_handler, hperm, takes_context, hsig, hctx, handler_args]
  · intro p0 p1 rest hsig hctx
    simp [invoke_handler, hperm, takes_context, hsig, hctx, handler_args]
  · intro hsig
    simp [invoke_handler, hperm, takes_context, hsig, handler_args]
  · intro ps hsig hlen
    rcases ps with _ | ⟨p0, _ | ⟨p1, rest⟩⟩
    · simp [invoke_handler, hperm, takes_context, hsig, handler_args]
    · simp [invoke_handler, hperm, takes_context, hsig, handler_args]
    · simp only [List.length_cons] at hlen
      omega

/-- Witness for C9: a handler whose signature is `(payload, context)`
is invoked with both the payload and the request context. -/
theorem context_injection_spec_witness :
    (invoke_handler baseState sampleCtxHandler sampleCtx
        (takes_context sampleCtxHandler) (Payload.mk none "x")).1
      = .completed (sampleCtxHandler.run
          (.withContext (Payload.mk none "x") sampleCtx)) :=
  (context_injection_spec baseState sampleCtxHandler sampleCtx
    (Payload.mk none "x") (by decide)).1 "payload" "context" [] rfl rfl

/-- Claim C10: with debug mode disabled, or with a falsy (or absent)
directive value even in debug mode, the directive dispatcher does not
intercept the request: the invocation follows the ordinary path, and
that path delivers exactly the original payload to the entrypoint
handler. -/
theorem debug_passthrough_spec (st : AppState) (h : HandlerVal)
    (payload : Payload) (ctx : RequestContext) (now : Nat)
    (hmain : st.handlers_main = some h) (hperm : st.permits ≠ 0) :
    (st.debug = false →
        handle_invocation st payload ctx now
          = dispatch_invocation st payload ctx)
    ∧ (st.debug = true → payload.action = some "" →
        handle_invocation st payload ctx now
          = dispatch_invocation st payload ctx)
    ∧ (st.debug = true → payload.action = none →
        handle_invocation st payload ctx now
          = dispatch_invocation st payload ctx)
    ∧ dispatch_invocation st payload ctx
        = (response_of (h.run (handler_args (takes_context h) payload ctx)),
            st) := by
  refine ⟨?_, ?_, ?_, ?_⟩
  · intro hdbg
    simp [handle_invocation, hdbg]
  · intro hdbg ha
    simp [handle_invocation, hdbg, handle_task_action, ha]
  · intro hdbg ha
    simp [handle_invocation, hdbg, handle_task_action, ha]
  · have hp : st.permits - 1 + 1 = st.permits :=
      Nat.succ_pred_eq_of_pos (Nat.pos_of_ne_zero hperm)
    obtain ⟨f1, f2, f3, f4, f5, f6, f7, f8⟩ := st
    simp_all [dispatch_invocation, invoke_handler]

/-- Witness for C10: with debug disabled, a payload carrying the
directive field is routed through the ordinary dispatch path. -/
theorem debug_passthrough_spec_witness :
    handle_invocation baseState (Payload.mk (some "ping_status") "x")
        sampleCtx 0
      = dispatch_invocation baseState (Payload.mk (some "ping_status") "x")
          sampleCtx :=
  (debug_passthrough_spec baseState sampleHandler
    (Payload.mk (some "ping_status") "x") sampleCtx 0 rfl (by decide)).1 rfl

end AgentCore
